import Mathlib

/-!
Verification of the core logic of the weather dashboard (`src/app.py`):
the condition classifier `condition_key`, the CSS theme table used by
`background_css`, and the daily forecast aggregator `group_forecast_daily`.

Modelling choices of the shallow embedding:
* condition labels are Lean `String`s; `None` input is `Option.none`;
  Python's `(weather_main or "")` becomes `Option.getD "" ` (the empty
  string is falsy in Python, so both `None` and `""` yield `""`);
* Python substring test `sub in m` is `containsStr m sub`, implemented by
  direct recursion over the character lists;
* `str.lower()` is `lowerStr`, mapping `Char.toLower` over the characters;
* temperatures and wind speeds are rationals (`ℚ`);
* a calendar date is encoded by its day number since the epoch
  (`1970-01-01` is day 0): `datetime.utcfromtimestamp(t).date()` is
  `t.fdiv 86400`, floor division matching Python's semantics for negative
  instants, and the encoding is order-isomorphic to civil dates;
* the insertion-ordered Python dict `days` is an association list
  `List (Int × Entry)`; `setdefault` + in-place appends become `addSample`;
* `sorted(days.items())` (keys are distinct, so tuple comparison reduces
  to key comparison) becomes an insertion sort by key.
-/

/-! ### Strings: lowercase and substring containment -/

/-- `startsWithList s sub`: `sub` is an initial segment of `s`. -/
def startsWithList : List Char → List Char → Bool
  | _, [] => true
  | [], _ :: _ => false
  | c :: cs, d :: ds => c == d && startsWithList cs ds

/-- `containsList s sub`: `sub` occurs contiguously inside `s`
(Python's `sub in s`). -/
def containsList : List Char → List Char → Bool
  | [], sub => sub.isEmpty
  | c :: rest, sub => startsWithList (c :: rest) sub || containsList rest sub

/-- Python `sub in m` on strings. -/
def containsStr (m sub : String) : Bool :=
  containsList m.data sub.data

/-- Python `m.lower()` (ASCII case folding, as `Char.toLower`). -/
def lowerStr (s : String) : String :=
  ⟨s.data.map Char.toLower⟩

/-! ### `condition_key` (src/app.py lines 48-65) -/

/-- The if-chain of `condition_key`, applied to the already-lowercased
label `m`. -/
def conditionKeyOfLower (m : String) : String :=
  if containsStr m "thunder" then "thunderstorm"
  else if containsStr m "drizzle" then "drizzle"
  else if containsStr m "rain" then "rain"
  else if containsStr m "snow" then "snow"
  else if containsStr m "cloud" then "clouds"
  else if containsStr m "mist" || containsStr m "fog" ||
          containsStr m "haze" || containsStr m "smoke" then "mist"
  else if containsStr m "clear" then "clear"
  else "other"

/-- `condition_key(weather_main)`: simplify weather type for background
theme. `m = (weather_main or "").lower()` then the priority if-chain. -/
def condition_key (weather_main : Option String) : String :=
  conditionKeyOfLower (lowerStr (weather_main.getD ""))

/-! ### `background_css` (src/app.py lines 68-99): theme style table -/

/-- One entry of `css_map`: a gradient and an optional animation name. -/
structure CssData where
  gradient : String
  animation : Option String
deriving DecidableEq

/-- The `css_map` literal of `background_css`, in source order. -/
def css_map : List (String × CssData) :=
  [ ("clear", ⟨"linear-gradient(135deg, #f7971e 0%, #ffd200 100%)", none⟩)
  , ("clouds", ⟨"linear-gradient(135deg, #606c88 0%, #3f4c6b 100%)", none⟩)
  , ("rain", ⟨"linear-gradient(135deg, #4b79a1 0%, #283e51 100%)", some "rain"⟩)
  , ("snow", ⟨"linear-gradient(135deg, #83a4d4 0%, #b6fbff 100%)", some "snow"⟩)
  , ("thunderstorm", ⟨"linear-gradient(135deg, #2c3e50 0%, #4ca1af 100%)", some "rain"⟩)
  , ("mist", ⟨"linear-gradient(135deg, #bdc3c7 0%, #2c3e50 100%)", none⟩)
  , ("other", ⟨"linear-gradient(135deg, #D7D2CC 0%, #304352 100%)", none⟩) ]

/-- `css_map.get(theme, css_map["other"])`: first-match lookup with the
`other` entry as default. -/
def cssLookup (theme : String) : Option CssData :=
  List.lookup theme css_map

/-- The style record `background_css` renders with:
`data = css_map.get(theme, css_map["other"])`. -/
def cssDataFor (theme : String) : CssData :=
  (cssLookup theme).getD ⟨"linear-gradient(135deg, #D7D2CC 0%, #304352 100%)", none⟩

/-- The `base_css` f-string of `background_css`, parameterised by the
chosen gradient (literal braces written as escapes). -/
def base_css (gradient : String) : String :=
  "\n    <style>\n    .stApp \x7b\n        background: " ++ gradient ++
  ";\n        background-attachment: fixed;\n    \x7d\n    .glass \x7b\n        background: rgba(255,255,255,0.1);\n        border-radius: 18px;\n        padding: 18px;\n        border: 1px solid rgba(192,192,192,0.4);\n        box-shadow: 0 0 20px rgba(192,192,192,0.3);\n        backdrop-filter: blur(8px);\n        -webkit-backdrop-filter: blur(8px);\n    \x7d\n    .inline \x7b display: flex; align-items: center; gap: .75rem; \x7d\n    .muted \x7b opacity: .9; \x7d\n    .big-temp \x7b font-size: 56px; font-weight: 700; line-height: 1; \x7d\n    .day-card \x7b\n        display:flex; flex-direction:column; align-items:center; gap:.35rem;\n        background: rgba(255,255,255,0.12);\n        border: 1px solid rgba(255,255,255,0.2);\n        border-radius:16px; padding:14px; min-width:110px;\n    \x7d\n    .wicon \x7b width: 64px; height: 64px; \x7d\n    </style>\n    "

/-- The `rain_css` literal. -/
def rain_css : String :=
  "\n    <style>\n    .rain:before, .rain:after \x7b\n        content: \"\";\n        position: fixed;\n        top: 0; left: 0; right: 0; bottom: 0;\n        pointer-events: none;\n        background-image: radial-gradient(2px 12px at 20px 20px, rgba(255,255,255,.25) 50%, rgba(255,255,255,0) 51%);\n        background-size: 10px 40px;\n        animation: rain-fall 0.75s linear infinite;\n        opacity: .35;\n    \x7d\n    @keyframes rain-fall \x7b 0% \x7b\x7b transform: translateY(-40px); \x7d\x7d 100% \x7b\x7b transform: translateY(40px); \x7d\x7d \x7d\n    </style>\n    "

/-- The `snow_css` literal. -/
def snow_css : String :=
  "\n    <style>\n    .snow:before, .snow:after \x7b\n        content: \"\";\n        position: fixed;\n        top: 0; left: 0; right: 0; bottom: 0;\n        pointer-events: none;\n        background-image:\n          radial-gradient(3px 3px at 20px 20px, rgba(255,255,255,.9) 50%, rgba(255,255,255,0) 52%),\n          radial-gradient(2px 2px at 60px 40px, rgba(255,255,255,.8) 50%, rgba(255,255,255,0) 52%),\n          radial-gradient(2px 2px at 100px 80px, rgba(255,255,255,.85) 50%, rgba(255,255,255,0) 52%);\n        background-size: 120px 120px;\n        animation: snow-fall 6s linear infinite;\n        opacity: .6;\n    \x7d\n    @keyframes snow-fall \x7b 0% \x7b\x7b transform: translateY(-60px); \x7d\x7d 100% \x7b\x7b transform: translateY(60px); \x7d\x7d \x7d\n    </style>\n    "

/-- The `<script>` f-string tagging the app container with the animation
class. -/
def animScript (anim : String) : String :=
  "<script>const t=window.parent.document.querySelector(\x27.stApp\x27); if(t) t.classList.add(\x27" ++ anim ++ "\x27);</script>"

/-- `background_css(theme)`: CSS with gradient and optional animation. -/
def background_css (theme : String) : String :=
  let data := cssDataFor theme
  let anim := data.animation
  let anim_css : String :=
    match anim with
    | some "rain" => rain_css
    | some "snow" => snow_css
    | _ => ""
  let script : String :=
    match anim with
    | some "rain" => animScript "rain"
    | some "snow" => animScript "snow"
    | _ => ""
  base_css data.gradient ++ anim_css ++ script

/-! ### Data model of the forecast payload -/

/-- One 3-hour forecast entry, with the fields `group_forecast_daily`
reads: `it["dt"]`, `it["main"]["temp"]`, `it["weather"][0]["icon"]`,
`it["weather"][0]["main"]`, `it["wind"]["speed"]`. -/
structure Sample where
  dt : Int
  temp : ℚ
  icon : String
  main : String
  wind : ℚ
deriving DecidableEq

/-- The `"city"` object, as far as the aggregator reads it: an optional
`"timezone"` field. -/
structure City where
  timezone? : Option Int
deriving DecidableEq

/-- The forecast payload, as far as the aggregator reads it: an optional
`"list"` of samples and an optional `"city"` object. -/
structure Forecast where
  list? : Option (List Sample)
  city? : Option City
deriving DecidableEq

/-- `forecast_json.get("list", [])`. -/
def Forecast.items (f : Forecast) : List Sample :=
  f.list?.getD []

/-- `forecast_json.get("city", \x7b\x7d).get("timezone", 0)`. -/
def Forecast.tz (f : Forecast) : Int :=
  match f.city? with
  | none => 0
  | some c => c.timezone?.getD 0

/-! ### The daily aggregator (src/app.py lines 177-197) -/

/-- `datetime.utcfromtimestamp(ts + tz).date()`, encoded as the day
number since the epoch: floor division of the shifted instant by 86400. -/
def localDate (tz ts : Int) : Int :=
  (ts + tz).fdiv 86400

/-- One value of the `days` dict: the four per-bucket lists, in
insertion order. -/
structure Entry where
  temps : List ℚ
  icons : List String
  mains : List String
  winds : List ℚ
deriving DecidableEq

/-- The `setdefault` default `\x7b"temps": [], "icons": [], "mains": [],
"winds": []\x7d`. -/
def emptyE : Entry := ⟨[], [], [], []⟩

/-- The four appends of one loop iteration: `e["temps"].append(...)`,
`e["icons"].append(...)`, `e["mains"].append(...)`, `e["winds"].append(...)`. -/
def pushE (e : Entry) (s : Sample) : Entry :=
  ⟨e.temps ++ [s.temp], e.icons ++ [s.icon], e.mains ++ [s.main], e.winds ++ [s.wind]⟩

/-- The entry a whole list of samples produces: the four field lists in
input order. -/
def bucketE (l : List Sample) : Entry :=
  ⟨l.map Sample.temp, l.map Sample.icon, l.map Sample.main, l.map Sample.wind⟩

/-- Componentwise concatenation of entries (used to state how buckets
grow). -/
def appendE (e₁ e₂ : Entry) : Entry :=
  ⟨e₁.temps ++ e₂.temps, e₁.icons ++ e₂.icons,
   e₁.mains ++ e₂.mains, e₁.winds ++ e₂.winds⟩

/-- One loop iteration of `group_forecast_daily`:
`e = days.setdefault(date, empty)` followed by the four appends. If the
key is present its entry grows in place, otherwise a new pair is appended
at the end (Python dicts keep insertion order). -/
def addSample (days : List (Int × Entry)) (d : Int) (s : Sample) :
    List (Int × Entry) :=
  match days with
  | [] => [(d, pushE emptyE s)]
  | (k, e) :: rest =>
    if k = d then (k, pushE e s) :: rest
    else (k, e) :: addSample rest d s

/-- Dict lookup by key in the association-list model. -/
def findEntry (d : Int) : List (Int × Entry) → Option Entry
  | [] => none
  | (k, e) :: rest => if k = d then some e else findEntry d rest

/-- The `for it in items` loop, threading the `days` dict. -/
def buildAux (tz : Int) (days : List (Int × Entry)) :
    List Sample → List (Int × Entry)
  | [] => days
  | it :: rest => buildAux tz (addSample days (localDate tz it.dt) it) rest

/-- The `days` dict after the loop, starting from `\x7b\x7d`. -/
def buildDays (tz : Int) (items : List Sample) : List (Int × Entry) :=
  buildAux tz [] items

/-- Insertion of one pair into a key-sorted list (`sorted` on
`days.items()`; keys are distinct, so tuple order is key order). -/
def insertByKey (p : Int × Entry) : List (Int × Entry) → List (Int × Entry)
  | [] => [p]
  | q :: rest => if p.1 ≤ q.1 then p :: q :: rest else q :: insertByKey p rest

/-- Insertion sort by key: `sorted(days.items())`. -/
def sortByKey : List (Int × Entry) → List (Int × Entry)
  | [] => []
  | p :: rest => insertByKey p (sortByKey rest)

/-- One element of the output list `out`. -/
structure DaySummary where
  date : Int
  temp : ℚ
  icon : String
  main : String
  wind : ℚ
deriving DecidableEq

/-- The body of the output loop: averages and the middle-index
representative icon/label (`v["icons"][len(v["icons"]) // 2]`). -/
def summarize (d : Int) (v : Entry) : DaySummary :=
  { date := d
  , temp := v.temps.sum / (v.temps.length : ℚ)
  , icon := v.icons.getD (v.icons.length / 2) ""
  , main := v.mains.getD (v.mains.length / 2) ""
  , wind := v.winds.sum / (v.winds.length : ℚ) }

/-- `group_forecast_daily(forecast_json)`: aggregate forecast data by day
(average temperature & wind), sorted by date, truncated to 5 entries. -/
def group_forecast_daily (f : Forecast) : List DaySummary :=
  (((sortByKey (buildDays f.tz f.items)).map
      fun p => summarize p.1 p.2).take 5)

/-! ### Spec-side definition for the refinement claim C1 -/

/-- Insertion of an integer into a sorted list of integers. -/
def insertInt (a : Int) : List Int → List Int
  | [] => [a]
  | b :: rest => if a ≤ b then a :: b :: rest else b :: insertInt a rest

/-- Insertion sort on integers. -/
def sortInts : List Int → List Int
  | [] => []
  | a :: rest => insertInt a (sortInts rest)

/-- Modelled from the spec: "the earliest 5 distinct local dates present
in the input" — the distinct local dates of the samples, sorted
ascending, truncated to 5. -/
def earliestLocalDates (tz : Int) (items : List Sample) : List Int :=
  (sortInts ((items.map fun s => localDate tz s.dt).dedup)).take 5

/-! ### Concrete payloads used to check the spec's worked examples
(3-hour spacing, day 19723 = 2024-01-01, day 19724 = 2024-01-02) -/

/-- A forecast whose single local date (2024-01-01, UTC) has five
samples with icons `a`..`e`. -/
def exIcons5 : Forecast :=
  ⟨some [ ⟨19723 * 86400 + 0 * 10800, 1, "a", "ma", 1⟩
        , ⟨19723 * 86400 + 1 * 10800, 2, "b", "mb", 1⟩
        , ⟨19723 * 86400 + 2 * 10800, 3, "c", "mc", 1⟩
        , ⟨19723 * 86400 + 3 * 10800, 4, "d", "md", 1⟩
        , ⟨19723 * 86400 + 4 * 10800, 5, "e", "me", 1⟩ ], some ⟨some 0⟩⟩

/-- A forecast whose single local date has four samples with icons
`a`..`d`. -/
def exIcons4 : Forecast :=
  ⟨some [ ⟨19723 * 86400 + 0 * 10800, 1, "a", "ma", 1⟩
        , ⟨19723 * 86400 + 1 * 10800, 2, "b", "mb", 1⟩
        , ⟨19723 * 86400 + 2 * 10800, 3, "c", "mc", 1⟩
        , ⟨19723 * 86400 + 3 * 10800, 4, "d", "md", 1⟩ ], some ⟨some 0⟩⟩

/-- The spec's averaging example: eight samples on 2024-01-01 with
temperatures 10,12,...,24 and one sample on 2024-01-02 with
temperature 5. -/
def exAvg : Forecast :=
  ⟨some [ ⟨19723 * 86400 + 0 * 10800, 10, "i0", "m0", 1⟩
        , ⟨19723 * 86400 + 1 * 10800, 12, "i1", "m1", 1⟩
        , ⟨19723 * 86400 + 2 * 10800, 14, "i2", "m2", 1⟩
        , ⟨19723 * 86400 + 3 * 10800, 16, "i3", "m3", 1⟩
        , ⟨19723 * 86400 + 4 * 10800, 18, "i4", "m4", 1⟩
        , ⟨19723 * 86400 + 5 * 10800, 20, "i5", "m5", 1⟩
        , ⟨19723 * 86400 + 6 * 10800, 22, "i6", "m6", 1⟩
        , ⟨19723 * 86400 + 7 * 10800, 24, "i7", "m7", 1⟩
        , ⟨19724 * 86400, 5, "i8", "m8", 1⟩ ], some ⟨some 0⟩⟩

/-- A one-sample forecast item used to instantiate bucket-membership
theorems. -/
def exOne : Sample := ⟨19723 * 86400, 7, "ic", "Rain", 3⟩

/-! ## Theorems -/

/-! ### Classifier claims -/

/-- C3: `condition_key` matches by substring containment in the priority
order thunder, drizzle, rain, snow, cloud, \x7bmist, fog, haze, smoke\x7d,
clear, first match winning: every label containing "rain" but neither
"thunder" nor "drizzle" classifies as `rain` even if "cloud" also
appears; `"light rain and cloudy"` gives `rain` and
`"Thunderstorm with light rain"` gives `thunderstorm`. -/
theorem condition_key_priority_rain :
    (∀ s : String,
      containsStr (lowerStr s) "rain" = true →
      containsStr (lowerStr s) "thunder" = false →
      containsStr (lowerStr s) "drizzle" = false →
      condition_key (some s) = "rain") ∧
    condition_key (some "light rain and cloudy") = "rain" ∧
    condition_key (some "Thunderstorm with light rain") = "thunderstorm" := by
  refine ⟨fun s h1 h2 h3 => ?_, by decide, by decide⟩
  simp [condition_key, conditionKeyOfLower, h1, h2, h3]

/-- Witness for C3: the general priority statement applied to the
concrete label `"light rain and cloudy"`. -/
theorem condition_key_priority_rain_witness :
    condition_key (some "light rain and cloudy") = "rain" :=
  condition_key_priority_rain.1 "light rain and cloudy"
    (by decide) (by decide) (by decide)

/-- C6: `condition_key` is total and deterministic: every input maps to
one of the eight theme categories, and null, empty, and unrecognized
labels (no keyword occurs) map to `other`. -/
theorem condition_key_total :
    (∀ o : Option String,
      condition_key o ∈
        ["thunderstorm", "drizzle", "rain", "snow", "clouds", "mist",
         "clear", "other"]) ∧
    condition_key none = "other" ∧
    condition_key (some "") = "other" ∧
    (∀ s : String,
      containsStr (lowerStr s) "thunder" = false →
      containsStr (lowerStr s) "drizzle" = false →
      containsStr (lowerStr s) "rain" = false →
      containsStr (lowerStr s) "snow" = false →
      containsStr (lowerStr s) "cloud" = false →
      containsStr (lowerStr s) "mist" = false →
      containsStr (lowerStr s) "fog" = false →
      containsStr (lowerStr s) "haze" = false →
      containsStr (lowerStr s) "smoke" = false →
      containsStr (lowerStr s) "clear" = false →
      condition_key (some s) = "other") := by
  refine ⟨fun o => ?_, by decide, by decide,
    fun s h1 h2 h3 h4 h5 h6 h7 h8 h9 h10 => ?_⟩
  · unfold condition_key conditionKeyOfLower
    repeat' split
    all_goals simp
  · simp [condition_key, conditionKeyOfLower,
      h1, h2, h3, h4, h5, h6, h7, h8, h9, h10]

/-- Witness for C6: the unrecognized-label statement applied to the
concrete label `"tornado"`. -/
theorem condition_key_total_witness :
    condition_key (some "tornado") = "other" :=
  condition_key_total.2.2.2 "tornado" (by decide) (by decide) (by decide)
    (by decide) (by decide) (by decide) (by decide) (by decide) (by decide)
    (by decide)

/-- C7: `condition_key` lowercases its input before matching, so two
labels with the same lowercase form classify identically; in particular
`"Haze"` gives `mist` and `"Clear"` gives `clear`. -/
theorem condition_key_case_insensitive :
    (∀ s t : String, lowerStr s = lowerStr t →
      condition_key (some s) = condition_key (some t)) ∧
    condition_key (some "Haze") = "mist" ∧
    condition_key (some "Clear") = "clear" := by
  refine ⟨fun s t h => ?_, by decide, by decide⟩
  unfold condition_key
  rw [show (some s).getD "" = s from rfl, show (some t).getD "" = t from rfl, h]

/-- Witness for C7: the case-insensitivity statement applied to the
concrete pair `"RAIN"`, `"rain"`. -/
theorem condition_key_case_insensitive_witness :
    condition_key (some "RAIN") = condition_key (some "rain") :=
  condition_key_case_insensitive.1 "RAIN" "rain" (by decide)

/-! ### CSS table claim -/

/-- C10: the `css_map` table has no `"drizzle"` entry although
`condition_key` can return `"drizzle"`; the lookup is total via the
`other` default, so any theme missing from the table — `drizzle` in
particular — renders with the `other` style. -/
theorem background_css_drizzle_default :
    cssLookup "drizzle" = none ∧
    condition_key (some "Drizzle") = "drizzle" ∧
    (∀ theme : String, cssLookup theme = none →
      background_css theme = background_css "other") ∧
    background_css "drizzle" = background_css "other" := by
  have hdef : ∀ theme : String, cssLookup theme = none →
      background_css theme = background_css "other" := by
    intro theme h
    have hd : cssDataFor theme = cssDataFor "other" := by
      rw [cssDataFor, h]; rfl
    unfold background_css
    rw [hd]
  exact ⟨by decide, by decide, hdef, hdef "drizzle" (by decide)⟩

/-- Witness for C10: the default-style statement applied to the concrete
theme `"drizzle"`. -/
theorem background_css_drizzle_default_witness :
    background_css "drizzle" = background_css "other" :=
  background_css_drizzle_default.2.2.1 "drizzle" (by decide)

/-! ### Aggregator helper lemmas: the `days` dict -/

theorem pushE_eq_appendE (e : Entry) (s : Sample) :
    pushE e s = appendE e (bucketE [s]) := rfl

theorem appendE_emptyE_left (e : Entry) : appendE emptyE e = e := by
  simp [appendE, emptyE]

theorem appendE_pushE (e : Entry) (s : Sample) (l : List Sample) :
    appendE (pushE e s) (bucketE l) = appendE e (bucketE (s :: l)) := by
  simp [appendE, pushE, bucketE]

theorem findEntry_addSample (days : List (Int × Entry)) (d : Int)
    (s : Sample) (k : Int) :
    findEntry k (addSample days d s) =
      if k = d then some (pushE ((findEntry k days).getD emptyE) s)
      else findEntry k days := by
  induction days with
  | nil =>
    by_cases h : k = d
    · simp [addSample, findEntry, h]
    · simp [addSample, findEntry, h, Ne.symm h]
  | cons p rest ih =>
    obtain ⟨a, e⟩ := p
    by_cases had : a = d <;> by_cases hk : k = a
    · subst had; subst hk
      simp [addSample, findEntry]
    · subst had
      simp [addSample, findEntry, hk, Ne.symm hk]
    · subst hk
      simp [addSample, findEntry, had]
    · simp [addSample, findEntry, had, hk, Ne.symm hk, ih]

theorem findEntry_buildAux (tz k : Int) (items : List Sample) :
    ∀ days : List (Int × Entry),
      findEntry k (buildAux tz days items) =
        match findEntry k days,
            items.filter (fun s => localDate tz s.dt == k) with
        | some e, l => some (appendE e (bucketE l))
        | none, [] => none
        | none, b :: bs => some (bucketE (b :: bs)) := by
  induction items with
  | nil =>
    intro days
    cases h : findEntry k days with
    | none => simp [buildAux, h]
    | some e => simp [buildAux, h, appendE, bucketE]
  | cons it rest ih =>
    intro days
    by_cases hd : localDate tz it.dt = k
    · have hbeq : (localDate tz it.dt == k) = true := by simp [hd]
      have hstep : findEntry k (addSample days (localDate tz it.dt) it) =
          some (pushE ((findEntry k days).getD emptyE) it) := by
        rw [findEntry_addSample, if_pos hd.symm]
      rw [buildAux, ih, hstep]
      cases h : findEntry k days with
      | none =>
        simp only [h, Option.getD_none, List.filter_cons, hbeq, if_true]
        rw [appendE_pushE, appendE_emptyE_left]
      | some e =>
        simp only [h, Option.getD_some, List.filter_cons, hbeq, if_true]
        rw [appendE_pushE]
    · have hbeq : (localDate tz it.dt == k) = false := by simp [hd]
      have hstep : findEntry k (addSample days (localDate tz it.dt) it) =
          findEntry k days := by
        rw [findEntry_addSample, if_neg (fun h => hd h.symm)]
      rw [buildAux, ih, hstep]
      simp [List.filter_cons, hbeq]

theorem findEntry_buildDays (tz : Int) (items : List Sample) (k : Int) :
    findEntry k (buildDays tz items) =
      if items.filter (fun s => localDate tz s.dt == k) = [] then none
      else some (bucketE (items.filter fun s => localDate tz s.dt == k)) := by
  rw [buildDays, findEntry_buildAux]
  cases h : items.filter (fun s => localDate tz s.dt == k) with
  | nil => simp [findEntry, h]
  | cons b bs => simp [findEntry, h]

theorem keys_addSample (days : List (Int × Entry)) (d : Int) (s : Sample) :
    (addSample days d s).map Prod.fst =
      if d ∈ days.map Prod.fst then days.map Prod.fst
      else days.map Prod.fst ++ [d] := by
  induction days with
  | nil => simp [addSample]
  | cons p rest ih =>
    obtain ⟨a, e⟩ := p
    by_cases had : a = d
    · simp [addSample, had]
    · by_cases hmem : d ∈ rest.map Prod.fst <;>
        simp [addSample, had, Ne.symm had, hmem, ih]

theorem nodup_keys_addSample (days : List (Int × Entry)) (d : Int)
    (s : Sample) (h : (days.map Prod.fst).Nodup) :
    ((addSample days d s).map Prod.fst).Nodup := by
  rw [keys_addSample]
  by_cases hmem : d ∈ days.map Prod.fst
  · simpa [hmem] using h
  · simp [hmem, List.nodup_append, h]

theorem nodup_keys_buildAux (tz : Int) (items : List Sample) :
    ∀ days : List (Int × Entry), (days.map Prod.fst).Nodup →
      ((buildAux tz days items).map Prod.fst).Nodup := by
  induction items with
  | nil => intro days h; simpa [buildAux] using h
  | cons it rest ih =>
    intro days h
    exact ih _ (nodup_keys_addSample days (localDate tz it.dt) it h)

theorem nodup_keys_buildDays (tz : Int) (items : List Sample) :
    ((buildDays tz items).map Prod.fst).Nodup :=
  nodup_keys_buildAux tz items [] (by simp)

theorem findEntry_eq_none_iff (k : Int) (l : List (Int × Entry)) :
    findEntry k l = none ↔ k ∉ l.map Prod.fst := by
  induction l with
  | nil => simp [findEntry]
  | cons p rest ih =>
    obtain ⟨a, e⟩ := p
    by_cases h : a = k
    · simp [findEntry, h]
    · simp [findEntry, h, Ne.symm h, ih]

theorem findEntry_of_mem (l : List (Int × Entry)) (d : Int) (e : Entry)
    (hnd : (l.map Prod.fst).Nodup) (hmem : (d, e) ∈ l) :
    findEntry d l = some e := by
  induction l with
  | nil => simp at hmem
  | cons p rest ih =>
    obtain ⟨a, e'⟩ := p
    rcases List.mem_cons.mp hmem with h | h
    · rw [Prod.ext_iff] at h
      obtain ⟨h1, h2⟩ := h
      subst h1
      subst h2
      simp [findEntry]
    · have ha : a ≠ d := by
        intro had
        subst had
        exact (List.nodup_cons.mp hnd).1
          (List.mem_map.mpr ⟨(a, e), h, rfl⟩)
      rw [findEntry, if_neg ha]
      exact ih (List.nodup_cons.mp hnd).2 h

/-! ### Sorting lemmas -/

theorem insertInt_perm (a : Int) (l : List Int) :
    List.Perm (insertInt a l) (a :: l) := by
  induction l with
  | nil => rfl
  | cons b rest ih =>
    by_cases h : a ≤ b
    · simp [insertInt, h]
    · rw [insertInt, if_neg h]
      exact (ih.cons b).trans (List.Perm.swap a b rest)

theorem sortInts_perm (l : List Int) : List.Perm (sortInts l) l := by
  induction l with
  | nil => rfl
  | cons a rest ih => exact (insertInt_perm a (sortInts rest)).trans (ih.cons a)

theorem sorted_insertInt (a : Int) (l : List Int)
    (h : l.Sorted (· ≤ ·)) : (insertInt a l).Sorted (· ≤ ·) := by
  induction l with
  | nil => simp [insertInt]
  | cons b rest ih =>
    rw [List.sorted_cons] at h
    by_cases hab : a ≤ b
    · rw [insertInt, if_pos hab, List.sorted_cons]
      refine ⟨fun c hc => ?_, List.sorted_cons.mpr h⟩
      rcases List.mem_cons.mp hc with rfl | hc
      · exact hab
      · exact hab.trans (h.1 c hc)
    · rw [insertInt, if_neg hab, List.sorted_cons]
      refine ⟨fun c hc => ?_, ih h.2⟩
      rcases List.mem_cons.mp ((insertInt_perm a rest).mem_iff.mp hc) with rfl | hc
      · exact le_of_not_le hab
      · exact h.1 c hc

theorem sorted_sortInts (l : List Int) : (sortInts l).Sorted (· ≤ ·) := by
  induction l with
  | nil => simp [sortInts]
  | cons a rest ih => exact sorted_insertInt a (sortInts rest) ih

theorem insertByKey_perm (p : Int × Entry) (l : List (Int × Entry)) :
    List.Perm (insertByKey p l) (p :: l) := by
  induction l with
  | nil => rfl
  | cons q rest ih =>
    by_cases h : p.1 ≤ q.1
    · simp [insertByKey, h]
    · rw [insertByKey, if_neg h]
      exact (ih.cons q).trans (List.Perm.swap p q rest)

theorem sortByKey_perm (l : List (Int × Entry)) : List.Perm (sortByKey l) l := by
  induction l with
  | nil => rfl
  | cons p rest ih =>
    exact (insertByKey_perm p (sortByKey rest)).trans (ih.cons p)

theorem map_fst_insertByKey (p : Int × Entry) (l : List (Int × Entry)) :
    (insertByKey p l).map Prod.fst = insertInt p.1 (l.map Prod.fst) := by
  induction l with
  | nil => simp [insertByKey, insertInt]
  | cons q rest ih =>
    by_cases h : p.1 ≤ q.1
    · simp [insertByKey, insertInt, h]
    · simp [insertByKey, insertInt, h, ih]

theorem map_fst_sortByKey (l : List (Int × Entry)) :
    (sortByKey l).map Prod.fst = sortInts (l.map Prod.fst) := by
  induction l with
  | nil => simp [sortByKey, sortInts]
  | cons p rest ih =>
    simp [sortByKey, sortInts, map_fst_insertByKey, ih]

theorem mem_keys_buildDays (tz : Int) (items : List Sample) (k : Int) :
    k ∈ (buildDays tz items).map Prod.fst ↔
      k ∈ items.map (fun s => localDate tz s.dt) := by
  have h := findEntry_buildDays tz items k
  by_cases hf : items.filter (fun s => localDate tz s.dt == k) = []
  · rw [if_pos hf] at h
    have hk : k ∉ (buildDays tz items).map Prod.fst :=
      (findEntry_eq_none_iff k _).mp h
    rw [List.filter_eq_nil_iff] at hf
    constructor
    · intro hmem; exact absurd hmem hk
    · intro hmem
      obtain ⟨s, hs, rfl⟩ := List.mem_map.mp hmem
      exact absurd (by simp) (hf s hs)
  · rw [if_neg hf] at h
    have hk : k ∈ (buildDays tz items).map Prod.fst := by
      by_contra hk
      rw [← findEntry_eq_none_iff k _] at hk
      rw [hk] at h
      cases h
    obtain ⟨s, hs⟩ := List.exists_mem_of_ne_nil _ hf
    obtain ⟨hsi, hsk⟩ := List.mem_filter.mp hs
    have : localDate tz s.dt = k := by simpa using hsk
    exact ⟨fun _ => List.mem_map.mpr ⟨s, hsi, this⟩, fun _ => hk⟩

theorem group_mem_structure (f : Forecast) (y : DaySummary)
    (hy : y ∈ group_forecast_daily f) :
    f.items.filter (fun s => localDate f.tz s.dt == y.date) ≠ [] ∧
    y = summarize y.date
      (bucketE (f.items.filter fun s => localDate f.tz s.dt == y.date)) := by
  have h1 : y ∈ (sortByKey (buildDays f.tz f.items)).map
      (fun p => summarize p.1 p.2) := List.mem_of_mem_take hy
  obtain ⟨p, hp, hsum⟩ := List.mem_map.mp h1
  have hpd : (p.1, p.2) ∈ buildDays f.tz f.items := by
    exact (sortByKey_perm _).mem_iff.mp hp
  have hfe : findEntry p.1 (buildDays f.tz f.items) = some p.2 :=
    findEntry_of_mem _ _ _ (nodup_keys_buildDays f.tz f.items) hpd
  rw [findEntry_buildDays] at hfe
  by_cases hf : f.items.filter (fun s => localDate f.tz s.dt == p.1) = []
  · rw [if_pos hf] at hfe
    cases hfe
  · rw [if_neg hf] at hfe
    have hp2 : bucketE (f.items.filter fun s => localDate f.tz s.dt == p.1) =
        p.2 := Option.some.inj hfe
    have hdate : y.date = p.1 := by rw [← hsum]; rfl
    constructor
    · rw [hdate]; exact hf
    · rw [hdate, ← hsum, ← hp2]

theorem fdiv_day_one : Int.fdiv 1704067200 86400 = 19723 := by decide

theorem fdiv_day_two : Int.fdiv 1704153600 86400 = 19724 := by decide

theorem group_exAvg_eval : group_forecast_daily exAvg =
    [⟨19723, 17, "i4", "m4", 1⟩, ⟨19724, 5, "i8", "m8", 1⟩] := by
  norm_num [group_forecast_daily, exAvg, Forecast.items, Forecast.tz,
    buildDays, buildAux, addSample, localDate, sortByKey, insertByKey,
    summarize, pushE, emptyE, bucketE, fdiv_day_one, fdiv_day_two]

theorem group_exIcons5_eval : group_forecast_daily exIcons5 =
    [⟨19723, 3, "c", "mc", 1⟩] := by
  norm_num [group_forecast_daily, exIcons5, Forecast.items, Forecast.tz,
    buildDays, buildAux, addSample, localDate, sortByKey, insertByKey,
    summarize, pushE, emptyE, bucketE, fdiv_day_one]

theorem group_exIcons4_eval : group_forecast_daily exIcons4 =
    [⟨19723, 5 / 2, "c", "mc", 1⟩] := by
  norm_num [group_forecast_daily, exIcons4, Forecast.items, Forecast.tz,
    buildDays, buildAux, addSample, localDate, sortByKey, insertByKey,
    summarize, pushE, emptyE, bucketE, fdiv_day_one]

/-! ### Aggregator claims -/

/-- C1: for every payload, `group_forecast_daily` returns at most 5
summaries, their dates are strictly ascending with no duplicates, and
they are exactly the earliest 5 distinct local dates of the input
(later dates are dropped). -/
theorem group_forecast_daily_sorted_truncated (f : Forecast) :
    (group_forecast_daily f).length ≤ 5 ∧
    List.Pairwise (· < ·) ((group_forecast_daily f).map DaySummary.date) ∧
    (group_forecast_daily f).map DaySummary.date =
      earliestLocalDates f.tz f.items := by
  have hdates : (group_forecast_daily f).map DaySummary.date =
      (sortInts ((buildDays f.tz f.items).map Prod.fst)).take 5 := by
    rw [group_forecast_daily, List.map_take, List.map_map]
    have hcomp : (DaySummary.date ∘ fun (p : Int × Entry) =>
        summarize p.1 p.2) = Prod.fst := rfl
    rw [hcomp, map_fst_sortByKey]
  have hnd : ((buildDays f.tz f.items).map Prod.fst).Nodup :=
    nodup_keys_buildDays f.tz f.items
  have hsortnd : (sortInts ((buildDays f.tz f.items).map Prod.fst)).Nodup :=
    (sortInts_perm _).nodup_iff.mpr hnd
  have hsorted := sorted_sortInts ((buildDays f.tz f.items).map Prod.fst)
  have hlt := hsorted.lt_of_le hsortnd
  have hdednd : (sortInts ((f.items.map fun s =>
      localDate f.tz s.dt).dedup)).Nodup :=
    (sortInts_perm _).nodup_iff.mpr (List.nodup_dedup _)
  have hperm : List.Perm (sortInts ((buildDays f.tz f.items).map Prod.fst))
      (sortInts ((f.items.map fun s => localDate f.tz s.dt).dedup)) := by
    rw [List.perm_ext_iff_of_nodup hsortnd hdednd]
    intro x
    rw [(sortInts_perm _).mem_iff, (sortInts_perm _).mem_iff,
      mem_keys_buildDays, List.mem_dedup]
  have heq := List.eq_of_perm_of_sorted hperm hsorted (sorted_sortInts _)
  refine ⟨?_, ?_, ?_⟩
  · rw [group_forecast_daily, List.length_take]
    exact Nat.min_le_left _ _
  · rw [hdates]
    exact List.Pairwise.sublist (List.take_sublist 5 _) hlt
  · rw [hdates, heq]
    rfl

/-- C2: every returned summary's icon and condition label come from the
sample at index `floor(bucketSize / 2)` of its date's bucket in input
order; a five-sample bucket with icons `a`..`e` yields `"c"`, and a
four-sample bucket with icons `a`..`d` also yields `"c"`. -/
theorem group_forecast_daily_representative :
    (∀ (f : Forecast) (y : DaySummary), y ∈ group_forecast_daily f →
      y.icon = ((f.items.filter fun s => localDate f.tz s.dt == y.date).map
          Sample.icon).getD
        ((f.items.filter fun s => localDate f.tz s.dt == y.date).length / 2)
        "" ∧
      y.main = ((f.items.filter fun s => localDate f.tz s.dt == y.date).map
          Sample.main).getD
        ((f.items.filter fun s => localDate f.tz s.dt == y.date).length / 2)
        "") ∧
    (group_forecast_daily exIcons5).map DaySummary.icon = ["c"] ∧
    (group_forecast_daily exIcons4).map DaySummary.icon = ["c"] := by
  refine ⟨fun f y hy => ?_, by rw [group_exIcons5_eval]; rfl,
    by rw [group_exIcons4_eval]; rfl⟩
  obtain ⟨-, hstruct⟩ := group_mem_structure f y hy
  constructor
  · have := congrArg DaySummary.icon hstruct
    simpa [summarize, bucketE] using this
  · have := congrArg DaySummary.main hstruct
    simpa [summarize, bucketE] using this

/-- Witness for C2: the representative-sample statement applied to the
five-sample payload `exIcons5` and its unique summary. -/
theorem group_forecast_daily_representative_witness :
    (⟨19723, 3, "c", "mc", 1⟩ : DaySummary) ∈ group_forecast_daily exIcons5 ∧
    (⟨19723, 3, "c", "mc", 1⟩ : DaySummary).icon =
      ((exIcons5.items.filter fun s => localDate exIcons5.tz s.dt ==
          (⟨19723, 3, "c", "mc", 1⟩ : DaySummary).date).map Sample.icon).getD
        ((exIcons5.items.filter fun s => localDate exIcons5.tz s.dt ==
          (⟨19723, 3, "c", "mc", 1⟩ : DaySummary).date).length / 2) "" :=
  ⟨by rw [group_exIcons5_eval]; simp,
    (group_forecast_daily_representative.1 exIcons5 _
      (by rw [group_exIcons5_eval]; simp)).1⟩

/-- C4: each sample is assigned the local calendar date of the flat
integer-second shift `timestamp + timezoneOffset` (the day number `d`
satisfies `86400 * d ≤ t + tz < 86400 * d + 86400`, with no
timezone-database lookup), and the bucket keyed by that date collects
exactly the samples sharing it. -/
theorem localDate_flat_shift_bucket :
    (∀ tz ts : Int, 86400 * localDate tz ts ≤ ts + tz ∧
      ts + tz < 86400 * localDate tz ts + 86400) ∧
    (∀ (tz : Int) (items : List Sample) (s : Sample), s ∈ items →
      findEntry (localDate tz s.dt) (buildDays tz items) =
        some (bucketE (items.filter fun x =>
          localDate tz x.dt == localDate tz s.dt))) := by
  constructor
  · intro tz ts
    unfold localDate
    rw [Int.fdiv_eq_ediv _ (by norm_num)]
    omega
  · intro tz items s hs
    rw [findEntry_buildDays, if_neg]
    intro hnil
    have : s ∈ items.filter fun x => localDate tz x.dt == localDate tz s.dt :=
      List.mem_filter.mpr ⟨hs, by simp⟩
    rw [hnil] at this
    cases this

/-- Witness for C4: the bucket-assignment statement applied to the
one-sample list `[exOne]`. -/
theorem localDate_flat_shift_bucket_witness :
    exOne ∈ [exOne] ∧
    findEntry (localDate 0 exOne.dt) (buildDays 0 [exOne]) =
      some (bucketE ([exOne].filter fun x =>
        localDate 0 x.dt == localDate 0 exOne.dt)) :=
  ⟨by decide, localDate_flat_shift_bucket.2 0 [exOne] exOne (by decide)⟩

/-- C5: every returned summary's temperature and wind speed are the
arithmetic means of its date's bucket; the spec's worked example (eight
samples with temperatures 10..24 on 2024-01-01 and one sample of 5 on
2024-01-02) yields exactly the summaries 17.0 and 5.0 in date order. -/
theorem group_forecast_daily_averages :
    (∀ (f : Forecast) (y : DaySummary), y ∈ group_forecast_daily f →
      y.temp = ((f.items.filter fun s =>
          localDate f.tz s.dt == y.date).map Sample.temp).sum /
        (((f.items.filter fun s => localDate f.tz s.dt == y.date).length : ℚ)) ∧
      y.wind = ((f.items.filter fun s =>
          localDate f.tz s.dt == y.date).map Sample.wind).sum /
        (((f.items.filter fun s => localDate f.tz s.dt == y.date).length : ℚ))) ∧
    (group_forecast_daily exAvg).map DaySummary.date = [19723, 19724] ∧
    (group_forecast_daily exAvg).map DaySummary.temp = [17, 5] := by
  refine ⟨fun f y hy => ?_, by rw [group_exAvg_eval]; rfl,
    by rw [group_exAvg_eval]; rfl⟩
  obtain ⟨-, hstruct⟩ := group_mem_structure f y hy
  constructor
  · have := congrArg DaySummary.temp hstruct
    simpa [summarize, bucketE] using this
  · have := congrArg DaySummary.wind hstruct
    simpa [summarize, bucketE] using this

/-- Witness for C5: the averaging statement applied to `exAvg` and its
first summary. -/
theorem group_forecast_daily_averages_witness :
    (⟨19723, 17, "i4", "m4", 1⟩ : DaySummary) ∈ group_forecast_daily exAvg ∧
    (⟨19723, 17, "i4", "m4", 1⟩ : DaySummary).temp =
      ((exAvg.items.filter fun s => localDate exAvg.tz s.dt ==
          (⟨19723, 17, "i4", "m4", 1⟩ : DaySummary).date).map Sample.temp).sum /
      (((exAvg.items.filter fun s => localDate exAvg.tz s.dt ==
          (⟨19723, 17, "i4", "m4", 1⟩ : DaySummary).date).length : ℚ)) :=
  ⟨by rw [group_exAvg_eval]; simp,
    (group_forecast_daily_averages.1 exAvg _ (by rw [group_exAvg_eval]; simp)).1⟩

/-- C8: the empty sample list yields the empty output (no error), and
every bucket ever created holds at least one sample — its per-bucket
lists are non-empty, so the averaging divisions never divide by zero. -/
theorem group_forecast_daily_empty_safe :
    (∀ c : Option City, group_forecast_daily ⟨some [], c⟩ = []) ∧
    (∀ (tz : Int) (items : List Sample) (d : Int) (e : Entry),
      (d, e) ∈ buildDays tz items →
      e.temps ≠ [] ∧ e.winds ≠ []) := by
  refine ⟨fun c => rfl, fun tz items d e hmem => ?_⟩
  have hfe : findEntry d (buildDays tz items) = some e :=
    findEntry_of_mem _ _ _ (nodup_keys_buildDays tz items) hmem
  rw [findEntry_buildDays] at hfe
  by_cases hf : items.filter (fun s => localDate tz s.dt == d) = []
  · rw [if_pos hf] at hfe
    cases hfe
  · rw [if_neg hf] at hfe
    have he : bucketE (items.filter fun s => localDate tz s.dt == d) = e :=
      Option.some.inj hfe
    constructor
    · rw [← he]
      simpa [bucketE] using hf
    · rw [← he]
      simpa [bucketE] using hf

/-- Witness for C8: the non-empty-bucket statement applied to the
singleton `days` dict built from `[exOne]`. -/
theorem group_forecast_daily_empty_safe_witness :
    (localDate 0 exOne.dt, bucketE [exOne]) ∈ buildDays 0 [exOne] ∧
    (bucketE [exOne]).temps ≠ [] ∧ (bucketE [exOne]).winds ≠ [] :=
  ⟨by decide,
    group_forecast_daily_empty_safe.2 0 [exOne] (localDate 0 exOne.dt)
      (bucketE [exOne]) (by decide)⟩

/-- C9: a payload without a `"list"` key yields the empty output, and a
missing `"city"` object or `"timezone"` field makes the offset 0, so
dates are computed in plain UTC. -/
theorem group_forecast_daily_missing_fields :
    (∀ c : Option City, group_forecast_daily ⟨none, c⟩ = []) ∧
    (∀ l : Option (List Sample), Forecast.tz ⟨l, none⟩ = 0) ∧
    (∀ l : Option (List Sample), Forecast.tz ⟨l, some ⟨none⟩⟩ = 0) ∧
    (∀ l : Option (List Sample),
      group_forecast_daily ⟨l, none⟩ = group_forecast_daily ⟨l, some ⟨some 0⟩⟩) :=
  ⟨fun _ => rfl, fun _ => rfl, fun _ => rfl, fun _ => rfl⟩
